import Mathlib

/-!
Verification of `src/utils/dnsaddhost.py` (netmagis `dnsaddhost` utility).

The script is a linear orchestration of remote API calls through the
external collaborator class `nmcli.core.netmagis` (that module is not part
of this repository's sources; its operations are modelled from the spec).
We embed `main()` as a pure function from the parsed command-line
arguments and an environment (the collaborator's responses) to an outcome
together with the ordered trace of remote API requests issued.
-/

namespace Dnsaddhost

/-- A full host record as exchanged with the remote API
(`POST /hosts` payload in `main`, lines 68-80, and the JSON object
returned by `GET /hosts/{id}` and sent back by `PUT`).
Identifiers are integers, addresses a list of strings. -/
structure HostData where
  name : String
  iddom : Int
  idview : Int
  mac : String
  idhinfo : Int
  comment : String
  respname : String
  respmail : String
  iddhcpprof : Int
  ttl : Int
  addr : List String
deriving Repr, DecidableEq

/-- One remote API request, as issued by `nm.api` in `main`:
the lookup `GET /hosts?name=&domain=&view=`, the per-id `GET /hosts/{id}`,
the create `POST /hosts`, and the update `PUT /hosts/{id}`. -/
inductive Request where
  | lookupHosts (name domain view : String)
  | getHost (idhost : Int)
  | postHost (data : HostData)
  | putHost (idhost : Int) (data : HostData)
deriving Repr, DecidableEq

/-- A request is mutating when it creates or updates a record
(`POST` or `PUT`). -/
def Request.isMutating : Request → Bool
  | .postHost _ => true
  | .putHost _ _ => true
  | _ => false

/-- A request is a create (`POST /hosts`). -/
def Request.isPost : Request → Bool
  | .postHost _ => true
  | _ => false

/-- A request is an update (`PUT /hosts/{id}`). -/
def Request.isPut : Request → Bool
  | .putHost _ _ => true
  | _ => false

/-- A request is the per-id fetch (`GET /hosts/{id}`). -/
def Request.isGetHost : Request → Bool
  | .getHost _ => true
  | _ => false

/-- How the process terminates. `ok` is a normal exit (status 0);
`fatal` is `netmagis.grmbl`: print the message and exit non-zero;
`crash` is an uncaught Python exception (traceback, exit non-zero). -/
inductive Outcome where
  | ok
  | fatal (msg : String)
  | crash (msg : String)
deriving Repr, DecidableEq

/-- Modelled from the spec: the external collaborator
`nmcli.core.netmagis` (module `nmcli` is not under `src/`).  The spec
treats it as "read configuration", "resolve name to domain identifiers",
"resolve view name to an identifier" and "issue authenticated request,
return parsed response".  Each API response either succeeds with a parsed
body or is non-success, in which case `netmagis.test_answer` prints an
error message and terminates; we record that message.
`getIdview` returns an optional integer identifier: `none` models
Python's `None` and `some 0` a falsy integer result, both rejected by
the script's `if not idview` truthiness test. -/
structure Env where
  /-- `netmagis.default_conf_filename ()` -/
  defaultConf : String
  /-- `nm.read_conf file`: `some m` when it raises `RuntimeError (m)`. -/
  readConfErr : String → Option String
  /-- `nm.split_fqdn fqdn` = (name, domain, iddom). -/
  splitFqdn : String → Option String × String × Option Int
  /-- `nm.get_idview view`. -/
  getIdview : String → Option Int
  /-- `GET /hosts?name=&domain=&view=`: non-success message, or the
  matching host summaries given by their `idhost` fields. -/
  lookupHosts : String → String → String → Except String (List Int)
  /-- `GET /hosts/{id}`: non-success message, or the full record. -/
  getHost : Int → Except String HostData
  /-- `POST /hosts`: `some m` on a non-success response. -/
  postHost : HostData → Option String
  /-- `PUT /hosts/{id}`: `some m` on a non-success response. -/
  putHost : Int → HostData → Option String

/-- Parsed command-line arguments of `dnsaddhost [-c CONFIG_FILE]
<fqdn> <ip> <view>`. -/
structure Args where
  configFile : Option String
  fqdn : String
  ip : String
  view : String
deriving Repr, DecidableEq

/-- Shallow embedding of `main ()` in `src/utils/dnsaddhost.py`
(lines 18-104).  Returns the outcome and the ordered list of remote API
requests issued.

Note the faithful rendering of lines 27-28: the local `configfile` is
assigned only when `args.config_file is None`; when `-c` is given the
later `nm.read_conf (configfile)` reads an unbound local and Python
raises `UnboundLocalError`. -/
def run (args : Args) (env : Env) : Outcome × List Request :=
  match args.configFile with
  | some _ =>
      (.crash "UnboundLocalError: local variable referenced before assignment", [])
  | none =>
    let configfile := env.defaultConf
    match env.readConfErr configfile with
    | some m => (.fatal m, [])
    | none =>
      let (name?, domain, iddom?) := env.splitFqdn args.fqdn
      match name? with
      | none => (.fatal ("Invalid FQDN " ++ args.fqdn), [])
      | some name =>
        match iddom? with
        | none => (.fatal ("Unknown domain " ++ domain), [])
        | some iddom =>
          let idview? := env.getIdview args.view
          -- `if not idview:` — truthy test, so 0 is rejected like None
          if idview? = none ∨ idview? = some 0 then
            (.fatal ("Unknown view " ++ args.view), [])
          else
            let idview := idview?.getD 0
            let req₀ := Request.lookupHosts name domain args.view
            match env.lookupHosts name domain args.view with
            | .error m => (.fatal m, [req₀])
            | .ok j =>
              if j.length = 0 then
                let data : HostData :=
                  { name := name, iddom := iddom, idview := idview,
                    mac := "", idhinfo := 0, comment := "",
                    respname := "", respmail := "",
                    iddhcpprof := -1, ttl := -1, addr := [args.ip] }
                match env.postHost data with
                | some m => (.fatal m, [req₀, .postHost data])
                | none => (.ok, [req₀, .postHost data])
              else if j.length = 1 then
                let idhost := j.headI
                match env.getHost idhost with
                | .error m => (.fatal m, [req₀, .getHost idhost])
                | .ok rec0 =>
                  let data := { rec0 with addr := rec0.addr ++ [args.ip] }
                  match env.putHost idhost data with
                  | some m =>
                      (.fatal m, [req₀, .getHost idhost, .putHost idhost data])
                  | none =>
                      (.ok, [req₀, .getHost idhost, .putHost idhost data])
              else
                (.fatal ("Server error: host '" ++ name ++ "." ++ domain ++
                         "' exists more than once in view " ++ args.view),
                 [req₀])

/-- C3: with `-c CONFIG_FILE` the script is supposed to read the given
file, but `configfile` is only assigned in the `args.config_file is None`
branch (lines 27-28), so any `-c` invocation raises `UnboundLocalError`
at `nm.read_conf (configfile)` before any API request. -/
theorem config_option_crashes (args : Args) (env : Env) (c : String)
    (hc : args.configFile = some c) :
    run args env =
      (.crash "UnboundLocalError: local variable referenced before assignment",
       []) := by
  simp [run, hc]

/-- Witness for `config_option_crashes` at a concrete invocation. -/
theorem config_option_crashes_witness :
    run ⟨some "/etc/netmagisrc", "host1.example.com", "192.0.2.10", "internal"⟩
        { defaultConf := "~/.config/netmagisrc",
          readConfErr := fun _ => none,
          splitFqdn := fun _ => (some "host1", "example.com", some 1),
          getIdview := fun _ => some 1,
          lookupHosts := fun _ _ _ => .ok [],
          getHost := fun _ => .error "not found",
          postHost := fun _ => none,
          putHost := fun _ _ => none } =
      (.crash "UnboundLocalError: local variable referenced before assignment",
       []) :=
  config_option_crashes _ _ "/etc/netmagisrc" rfl

/-- C5: an undeterminable name portion, an unknown domain, or an unknown
view each terminate the run with the corresponding error message before
any API request is issued (the request trace is empty). -/
theorem resolution_failures_are_fatal (args : Args) (env : Env)
    (hc : args.configFile = none)
    (hr : env.readConfErr env.defaultConf = none) :
    (∀ domain iddom?, env.splitFqdn args.fqdn = (none, domain, iddom?) →
        run args env = (.fatal ("Invalid FQDN " ++ args.fqdn), []))
    ∧ (∀ name domain, env.splitFqdn args.fqdn = (some name, domain, none) →
        run args env = (.fatal ("Unknown domain " ++ domain), []))
    ∧ (∀ name domain iddom,
        env.splitFqdn args.fqdn = (some name, domain, some iddom) →
        env.getIdview args.view = none →
        run args env = (.fatal ("Unknown view " ++ args.view), [])) := by
  refine ⟨?_, ?_, ?_⟩
  · intro domain iddom? hs
    simp [run, hc, hr, hs]
  · intro name domain hs
    simp [run, hc, hr, hs]
  · intro name domain iddom hs hv
    simp [run, hc, hr, hs, hv]

/-- Witness for `resolution_failures_are_fatal`: the unknown-domain case
at a concrete invocation. -/
theorem resolution_failures_are_fatal_witness :
    run ⟨none, "host1.unknown.org", "192.0.2.10", "internal"⟩
        { defaultConf := "~/.config/netmagisrc",
          readConfErr := fun _ => none,
          splitFqdn := fun _ => (some "host1", "unknown.org", none),
          getIdview := fun _ => some 1,
          lookupHosts := fun _ _ _ => .ok [],
          getHost := fun _ => .error "not found",
          postHost := fun _ => none,
          putHost := fun _ _ => none } =
      (.fatal ("Unknown domain " ++ "unknown.org"), []) :=
  (resolution_failures_are_fatal _ _ rfl rfl).2.1 "host1" "unknown.org" rfl

/-- C9: the view check is `if not idview`, a truthiness test, so a view
resolving to the falsy identifier 0 is rejected with "Unknown view"
exactly like an absent view, before the host lookup (empty trace). -/
theorem falsy_idview_is_unknown_view (args : Args) (env : Env)
    (name domain : String) (iddom : Int)
    (hc : args.configFile = none)
    (hr : env.readConfErr env.defaultConf = none)
    (hs : env.splitFqdn args.fqdn = (some name, domain, some iddom))
    (hv : env.getIdview args.view = some 0) :
    run args env = (.fatal ("Unknown view " ++ args.view), []) := by
  simp [run, hc, hr, hs, hv]

/-- Witness for `falsy_idview_is_unknown_view` at a concrete invocation
where the view resolver returns the integer 0. -/
theorem falsy_idview_is_unknown_view_witness :
    run ⟨none, "host1.example.com", "192.0.2.10", "internal"⟩
        { defaultConf := "~/.config/netmagisrc",
          readConfErr := fun _ => none,
          splitFqdn := fun _ => (some "host1", "example.com", some 1),
          getIdview := fun _ => some 0,
          lookupHosts := fun _ _ _ => .ok [],
          getHost := fun _ => .error "not found",
          postHost := fun _ => none,
          putHost := fun _ _ => none } =
      (.fatal ("Unknown view " ++ "internal"), []) :=
  falsy_idview_is_unknown_view _ _ "host1" "example.com" 1 rfl rfl rfl rfl

/-- C1: when the host lookup returns zero matches, exactly one
`POST /hosts` create request is issued, and its payload has the resolved
name, iddom and idview, empty mac/comment/respname/respmail, idhinfo 0,
iddhcpprof -1, ttl -1 and address list `[ip]`. -/
theorem zero_matches_creates_host (args : Args) (env : Env)
    (name domain : String) (iddom v : Int)
    (hc : args.configFile = none)
    (hr : env.readConfErr env.defaultConf = none)
    (hs : env.splitFqdn args.fqdn = (some name, domain, some iddom))
    (hv : env.getIdview args.view = some v) (hv0 : v ≠ 0)
    (hl : env.lookupHosts name domain args.view = .ok []) :
    (run args env).2.filter Request.isPost =
      [Request.postHost
        { name := name, iddom := iddom, idview := v,
          mac := "", idhinfo := 0, comment := "",
          respname := "", respmail := "",
          iddhcpprof := -1, ttl := -1, addr := [args.ip] }] := by
  cases hp : env.postHost
      { name := name, iddom := iddom, idview := v,
        mac := "", idhinfo := 0, comment := "",
        respname := "", respmail := "",
        iddhcpprof := -1, ttl := -1, addr := [args.ip] } <;>
    simp [run, hc, hr, hs, hv, hv0, hl, hp, Request.isPost]

/-- Witness for `zero_matches_creates_host` at a concrete invocation
with an empty lookup result. -/
theorem zero_matches_creates_host_witness :
    (run ⟨none, "host1.example.com", "192.0.2.10", "internal"⟩
        { defaultConf := "~/.config/netmagisrc",
          readConfErr := fun _ => none,
          splitFqdn := fun _ => (some "host1", "example.com", some 3),
          getIdview := fun _ => some 7,
          lookupHosts := fun _ _ _ => .ok [],
          getHost := fun _ => .error "not found",
          postHost := fun _ => none,
          putHost := fun _ _ => none }).2.filter Request.isPost =
      [Request.postHost
        { name := "host1", iddom := 3, idview := 7,
          mac := "", idhinfo := 0, comment := "",
          respname := "", respmail := "",
          iddhcpprof := -1, ttl := -1, addr := ["192.0.2.10"] }] :=
  zero_matches_creates_host _ _ "host1" "example.com" 3 7
    rfl rfl rfl rfl (by decide) rfl

/-- C2: when the lookup returns exactly one match `h` whose full record
is `rec0`, the issued request sequence is exactly the lookup, then the
per-id `GET /hosts/{h}`, then one `PUT /hosts/{h}` whose address list is
`rec0.addr ++ [ip]` (order-preserving append, no deduplication), and no
`POST` is issued. -/
theorem one_match_appends_address (args : Args) (env : Env)
    (name domain : String) (iddom v h : Int) (rec0 : HostData)
    (hc : args.configFile = none)
    (hr : env.readConfErr env.defaultConf = none)
    (hs : env.splitFqdn args.fqdn = (some name, domain, some iddom))
    (hv : env.getIdview args.view = some v) (hv0 : v ≠ 0)
    (hl : env.lookupHosts name domain args.view = .ok [h])
    (hg : env.getHost h = .ok rec0) :
    (run args env).2 =
      [Request.lookupHosts name domain args.view,
       Request.getHost h,
       Request.putHost h { rec0 with addr := rec0.addr ++ [args.ip] }]
    ∧ (run args env).2.filter Request.isPost = [] := by
  cases hp : env.putHost h { rec0 with addr := rec0.addr ++ [args.ip] } <;>
    simp [run, hc, hr, hs, hv, hv0, hl, hg, hp, Request.isPost]

/-- Witness for `one_match_appends_address`: the repeated-call scenario,
where the record's address list already holds the added ip and the
duplicate is appended verbatim. -/
theorem one_match_appends_address_witness :
    (run ⟨none, "host1.example.com", "192.0.2.10", "internal"⟩
        { defaultConf := "~/.config/netmagisrc",
          readConfErr := fun _ => none,
          splitFqdn := fun _ => (some "host1", "example.com", some 3),
          getIdview := fun _ => some 7,
          lookupHosts := fun _ _ _ => .ok [42],
          getHost := fun _ => .ok
            { name := "host1", iddom := 3, idview := 7,
              mac := "", idhinfo := 0, comment := "",
              respname := "", respmail := "",
              iddhcpprof := -1, ttl := -1, addr := ["192.0.2.10"] },
          postHost := fun _ => none,
          putHost := fun _ _ => none }).2 =
      [Request.lookupHosts "host1" "example.com" "internal",
       Request.getHost 42,
       Request.putHost 42
        { name := "host1", iddom := 3, idview := 7,
          mac := "", idhinfo := 0, comment := "",
          respname := "", respmail := "",
          iddhcpprof := -1, ttl := -1,
          addr := ["192.0.2.10", "192.0.2.10"] }] :=
  (one_match_appends_address _ _ "host1" "example.com" 3 7 42
    { name := "host1", iddom := 3, idview := 7,
      mac := "", idhinfo := 0, comment := "",
      respname := "", respmail := "",
      iddhcpprof := -1, ttl := -1, addr := ["192.0.2.10"] }
    rfl rfl rfl rfl (by decide) rfl rfl).1

/-- C4: when the lookup returns more than one match, the run terminates
with the duplicate-host data-integrity error and the trace contains only
the lookup request: no `POST`, no per-id `GET` and no `PUT`. -/
theorem duplicate_hosts_fatal (args : Args) (env : Env)
    (name domain : String) (iddom v : Int) (js : List Int)
    (hc : args.configFile = none)
    (hr : env.readConfErr env.defaultConf = none)
    (hs : env.splitFqdn args.fqdn = (some name, domain, some iddom))
    (hv : env.getIdview args.view = some v) (hv0 : v ≠ 0)
    (hl : env.lookupHosts name domain args.view = .ok js)
    (hn : 2 ≤ js.length) :
    run args env =
      (.fatal ("Server error: host '" ++ name ++ "." ++ domain ++
               "' exists more than once in view " ++ args.view),
       [Request.lookupHosts name domain args.view]) := by
  have h0 : ¬ js.length = 0 := by omega
  have h1 : ¬ js.length = 1 := by omega
  simp [run, hc, hr, hs, hv, hv0, hl, h0, h1]

/-- Witness for `duplicate_hosts_fatal` with a two-element lookup
result. -/
theorem duplicate_hosts_fatal_witness :
    run ⟨none, "host1.example.com", "192.0.2.10", "internal"⟩
        { defaultConf := "~/.config/netmagisrc",
          readConfErr := fun _ => none,
          splitFqdn := fun _ => (some "host1", "example.com", some 3),
          getIdview := fun _ => some 7,
          lookupHosts := fun _ _ _ => .ok [42, 43],
          getHost := fun _ => .error "not found",
          postHost := fun _ => none,
          putHost := fun _ _ => none } =
      (.fatal ("Server error: host '" ++ "host1" ++ "." ++ "example.com" ++
               "' exists more than once in view " ++ "internal"),
       [Request.lookupHosts "host1" "example.com" "internal"]) :=
  duplicate_hosts_fatal _ _ "host1" "example.com" 3 7 [42, 43]
    rfl rfl rfl rfl (by decide) rfl (by decide)

/-- C6: on the one-match path, the record submitted in the `PUT` is the
record returned by the per-id `GET` with only the `addr` field changed:
every other field is passed through unchanged. -/
theorem update_preserves_other_fields (args : Args) (env : Env)
    (name domain : String) (iddom v h : Int) (rec0 : HostData)
    (hc : args.configFile = none)
    (hr : env.readConfErr env.defaultConf = none)
    (hs : env.splitFqdn args.fqdn = (some name, domain, some iddom))
    (hv : env.getIdview args.view = some v) (hv0 : v ≠ 0)
    (hl : env.lookupHosts name domain args.view = .ok [h])
    (hg : env.getHost h = .ok rec0) :
    ∃ p, (run args env).2.filter Request.isPut = [Request.putHost h p]
      ∧ p.name = rec0.name ∧ p.iddom = rec0.iddom ∧ p.idview = rec0.idview
      ∧ p.mac = rec0.mac ∧ p.idhinfo = rec0.idhinfo
      ∧ p.comment = rec0.comment ∧ p.respname = rec0.respname
      ∧ p.respmail = rec0.respmail ∧ p.iddhcpprof = rec0.iddhcpprof
      ∧ p.ttl = rec0.ttl ∧ p.addr = rec0.addr ++ [args.ip] := by
  refine ⟨{ rec0 with addr := rec0.addr ++ [args.ip] }, ?_,
    rfl, rfl, rfl, rfl, rfl, rfl, rfl, rfl, rfl, rfl, rfl⟩
  cases hp : env.putHost h { rec0 with addr := rec0.addr ++ [args.ip] } <;>
    simp [run, hc, hr, hs, hv, hv0, hl, hg, hp, Request.isPut]

/-- Witness for `update_preserves_other_fields` on a record with
non-empty fields. -/
theorem update_preserves_other_fields_witness :
    ∃ p, (run ⟨none, "host1.example.com", "192.0.2.11", "internal"⟩
        { defaultConf := "~/.config/netmagisrc",
          readConfErr := fun _ => none,
          splitFqdn := fun _ => (some "host1", "example.com", some 3),
          getIdview := fun _ => some 7,
          lookupHosts := fun _ _ _ => .ok [42],
          getHost := fun _ => .ok
            { name := "host1", iddom := 3, idview := 7,
              mac := "00:11:22:33:44:55", idhinfo := 5, comment := "lab",
              respname := "adm", respmail := "adm at example.com",
              iddhcpprof := 2, ttl := 3600, addr := ["192.0.2.10"] },
          postHost := fun _ => none,
          putHost := fun _ _ => none }).2.filter Request.isPut =
        [Request.putHost 42 p]
      ∧ p.name = "host1" ∧ p.iddom = 3 ∧ p.idview = 7
      ∧ p.mac = "00:11:22:33:44:55" ∧ p.idhinfo = 5
      ∧ p.comment = "lab" ∧ p.respname = "adm"
      ∧ p.respmail = "adm at example.com" ∧ p.iddhcpprof = 2
      ∧ p.ttl = 3600 ∧ p.addr = ["192.0.2.10"] ++ ["192.0.2.11"] :=
  update_preserves_other_fields _ _ "host1" "example.com" 3 7 42
    { name := "host1", iddom := 3, idview := 7,
      mac := "00:11:22:33:44:55", idhinfo := 5, comment := "lab",
      respname := "adm", respmail := "adm at example.com",
      iddhcpprof := 2, ttl := 3600, addr := ["192.0.2.10"] }
    rfl rfl rfl rfl (by decide) rfl rfl

/-- C7: a non-success response from any of the four remote calls (the
lookup `GET`, the `POST`, the per-id `GET`, the `PUT`) terminates the run
as a fatal error right after that call: the trace ends with the failing
request and no further request is issued. -/
theorem api_failure_is_fatal (args : Args) (env : Env)
    (name domain : String) (iddom v : Int)
    (hc : args.configFile = none)
    (hr : env.readConfErr env.defaultConf = none)
    (hs : env.splitFqdn args.fqdn = (some name, domain, some iddom))
    (hv : env.getIdview args.view = some v) (hv0 : v ≠ 0) :
    (∀ m, env.lookupHosts name domain args.view = .error m →
        run args env = (.fatal m, [Request.lookupHosts name domain args.view]))
    ∧ (∀ m, env.lookupHosts name domain args.view = .ok [] →
        env.postHost
          { name := name, iddom := iddom, idview := v,
            mac := "", idhinfo := 0, comment := "",
            respname := "", respmail := "",
            iddhcpprof := -1, ttl := -1, addr := [args.ip] } = some m →
        run args env =
          (.fatal m,
           [Request.lookupHosts name domain args.view,
            Request.postHost
              { name := name, iddom := iddom, idview := v,
                mac := "", idhinfo := 0, comment := "",
                respname := "", respmail := "",
                iddhcpprof := -1, ttl := -1, addr := [args.ip] }]))
    ∧ (∀ m h, env.lookupHosts name domain args.view = .ok [h] →
        env.getHost h = .error m →
        run args env =
          (.fatal m,
           [Request.lookupHosts name domain args.view, Request.getHost h]))
    ∧ (∀ m h rec0, env.lookupHosts name domain args.view = .ok [h] →
        env.getHost h = .ok rec0 →
        env.putHost h { rec0 with addr := rec0.addr ++ [args.ip] } = some m →
        run args env =
          (.fatal m,
           [Request.lookupHosts name domain args.view, Request.getHost h,
            Request.putHost h
              { rec0 with addr := rec0.addr ++ [args.ip] }])) := by
  refine ⟨?_, ?_, ?_, ?_⟩
  · intro m hl
    simp [run, hc, hr, hs, hv, hv0, hl]
  · intro m hl hp
    simp [run, hc, hr, hs, hv, hv0, hl, hp]
  · intro m h hl hg
    simp [run, hc, hr, hs, hv, hv0, hl, hg]
  · intro m h rec0 hl hg hp
    simp [run, hc, hr, hs, hv, hv0, hl, hg, hp]

/-- Witness for `api_failure_is_fatal`: a failing lookup `GET` at a
concrete invocation. -/
theorem api_failure_is_fatal_witness :
    run ⟨none, "host1.example.com", "192.0.2.10", "internal"⟩
        { defaultConf := "~/.config/netmagisrc",
          readConfErr := fun _ => none,
          splitFqdn := fun _ => (some "host1", "example.com", some 3),
          getIdview := fun _ => some 7,
          lookupHosts := fun _ _ _ => .error "HTTP 500",
          getHost := fun _ => .error "HTTP 500",
          postHost := fun _ => some "HTTP 500",
          putHost := fun _ _ => some "HTTP 500" } =
      (.fatal "HTTP 500",
       [Request.lookupHosts "host1" "example.com" "internal"]) :=
  (api_failure_is_fatal _ _ "host1" "example.com" 3 7
    rfl rfl rfl rfl (by decide)).1 "HTTP 500" rfl

/-- C8: on every execution path, at most one mutating request (`POST` or
`PUT`) is ever issued. -/
theorem at_most_one_mutating (args : Args) (env : Env) :
    ((run args env).2.filter Request.isMutating).length ≤ 1 := by
  rcases hcf : args.configFile with _ | c
  · rcases hr : env.readConfErr env.defaultConf with _ | m
    · rcases hs : env.splitFqdn args.fqdn with ⟨_ | name, domain, _ | iddom⟩
      · simp [run, hcf, hr, hs]
      · simp [run, hcf, hr, hs]
      · simp [run, hcf, hr, hs]
      · rcases hv : env.getIdview args.view with _ | v
        · simp [run, hcf, hr, hs, hv]
        · by_cases hv0 : v = 0
          · simp [run, hcf, hr, hs, hv, hv0]
          · rcases hl : env.lookupHosts name domain args.view with m | j
            · simp [run, hcf, hr, hs, hv, hv0, hl, Request.isMutating]
            · rcases j with _ | ⟨h, _ | ⟨h2, t⟩⟩
              · cases hp : env.postHost
                    { name := name, iddom := iddom, idview := v,
                      mac := "", idhinfo := 0, comment := "",
                      respname := "", respmail := "",
                      iddhcpprof := -1, ttl := -1, addr := [args.ip] } <;>
                  simp [run, hcf, hr, hs, hv, hv0, hl, hp,
                        Request.isMutating]
              · rcases hg : env.getHost h with m | rec0
                · simp [run, hcf, hr, hs, hv, hv0, hl, hg,
                        Request.isMutating]
                · cases hp : env.putHost h
                      { rec0 with addr := rec0.addr ++ [args.ip] } <;>
                    simp [run, hcf, hr, hs, hv, hv0, hl, hg, hp,
                          Request.isMutating]
              · simp [run, hcf, hr, hs, hv, hv0, hl, Request.isMutating]
    · simp [run, hcf, hr]
  · simp [run, hcf]

/-- C10: the run is deterministic — identical arguments, configuration
and collaborator responses yield the same outcome and the same request
trace with identical payloads. -/
theorem run_deterministic (a₁ a₂ : Args) (e₁ e₂ : Env)
    (ha : a₁ = a₂) (he : e₁ = e₂) : run a₁ e₁ = run a₂ e₂ := by
  subst ha
  subst he
  rfl

/-- Witness for `run_deterministic` at a concrete invocation and
environment. -/
theorem run_deterministic_witness :
    run ⟨none, "host1.example.com", "192.0.2.10", "internal"⟩
        { defaultConf := "~/.config/netmagisrc",
          readConfErr := fun _ => none,
          splitFqdn := fun _ => (some "host1", "example.com", some 3),
          getIdview := fun _ => some 7,
          lookupHosts := fun _ _ _ => .ok [],
          getHost := fun _ => .error "not found",
          postHost := fun _ => none,
          putHost := fun _ _ => none } =
    run ⟨none, "host1.example.com", "192.0.2.10", "internal"⟩
        { defaultConf := "~/.config/netmagisrc",
          readConfErr := fun _ => none,
          splitFqdn := fun _ => (some "host1", "example.com", some 3),
          getIdview := fun _ => some 7,
          lookupHosts := fun _ _ _ => .ok [],
          getHost := fun _ => .error "not found",
          postHost := fun _ => none,
          putHost := fun _ _ => none } :=
  run_deterministic _ _ _ _ rfl rfl

end Dnsaddhost
